import Mathlib

/-!
Shallow embedding of the NES CPU emulator core (src/cpu.rs, src/opcode.rs).

Machine integers are modelled as `Nat` with explicit `% 256` / `% 65536`
at the places the Rust code wraps or truncates.  The backing memory array
`[u8; 0xffff]` is modelled as a content function `Nat → Nat` together with
the constant size `MEM_SIZE = 0xffff`; an out-of-bounds index (a Rust
panic) is modelled as the typed error `MemoryAddressOutOfRange`.  The other
panic sites of the source (`from_u8`'s failure, the `NoneAddressing` arm of
`get_operand_address`, the dispatch catch-all of `run`) are likewise
modelled as typed `Except` errors.  The `run` loop takes a fuel parameter;
`none` means the fuel ran out before the loop returned.
-/

namespace Nes

/-- Addressing modes, from `src/cpu.rs` (`enum AddressingMode`). -/
inductive AddressingMode where
  | Immediate
  | ZeroPage
  | ZeroPageX
  | ZeroPageY
  | Absolute
  | AbsoluteX
  | AbsoluteY
  | IndirectX
  | IndirectY
  | NoneAddressing
  deriving DecidableEq

/-- Error kinds of the core (spec section 7); each models a panic site of the
Rust source.  `Unreachable` models the catch-all dispatch arm of `run`. -/
inductive CpuError where
  | UnknownOpcode (b : Nat)
  | InvalidAddressingMode
  | MemoryAddressOutOfRange (addr : Nat)
  | Unreachable
  deriving DecidableEq

/-- Opcode descriptor, from `src/opcode.rs` (`struct OpCode`). -/
structure OpCode where
  hex : Nat
  mnemonic : String
  bytes : Nat
  cycles : Nat
  mode : AddressingMode
  deriving DecidableEq

/-- The static opcode table, transcribed entry by entry from
`CPU_OP_CODES` in `src/opcode.rs` (same order, same fields). -/
def CPU_OP_CODES : List OpCode := [
  -- ADC
  ⟨0x69, "ADC", 2, 3, .Immediate⟩,
  ⟨0x65, "ADC", 2, 3, .ZeroPage⟩,
  ⟨0x75, "ADC", 2, 4, .ZeroPageX⟩,
  ⟨0x6d, "ADC", 3, 4, .Absolute⟩,
  ⟨0x7d, "ADC", 3, 4, .AbsoluteY⟩,
  ⟨0x79, "ADC", 3, 4, .AbsoluteY⟩,
  ⟨0x61, "ADC", 2, 6, .IndirectX⟩,
  ⟨0x71, "ADC", 2, 5, .IndirectY⟩,
  -- LDA
  ⟨0xa9, "LDA", 2, 2, .Immediate⟩,
  ⟨0xa5, "LDA", 2, 3, .ZeroPage⟩,
  ⟨0xb5, "LDA", 2, 4, .ZeroPageX⟩,
  ⟨0xad, "LDA", 3, 4, .Absolute⟩,
  ⟨0xbd, "LDA", 3, 4, .AbsoluteX⟩,
  ⟨0xb9, "LDA", 3, 4, .AbsoluteY⟩,
  ⟨0xa1, "LDA", 2, 6, .IndirectX⟩,
  ⟨0xb1, "LDA", 2, 5, .IndirectX⟩,
  -- STA
  ⟨0x85, "STA", 2, 3, .ZeroPage⟩,
  ⟨0x95, "STA", 2, 4, .ZeroPageX⟩,
  ⟨0x8d, "STA", 3, 4, .Absolute⟩,
  ⟨0x9d, "STA", 3, 5, .AbsoluteX⟩,
  ⟨0x99, "STA", 3, 5, .AbsoluteY⟩,
  ⟨0x81, "STA", 2, 6, .IndirectX⟩,
  ⟨0x91, "STA", 2, 6, .IndirectY⟩,
  -- TAX
  ⟨0xaa, "TAX", 1, 2, .NoneAddressing⟩,
  -- INX
  ⟨0xe8, "INX", 1, 2, .NoneAddressing⟩,
  -- BRK
  ⟨0x00, "BRK", 1, 7, .NoneAddressing⟩]

/-- `OpCode::from_u8`: linear scan of the table for the first entry whose
`hex` equals the input; the no-entry panic is the `UnknownOpcode` error. -/
def from_u8 (val : Nat) : Except CpuError OpCode :=
  match CPU_OP_CODES.find? (fun op => val == op.hex) with
  | some op => .ok op
  | none => .error (.UnknownOpcode val)

def ZERO_FLAG : Nat := 0b00000010
def NEGATIVE_FLAG : Nat := 0b10000000
def CARRY_FLAG : Nat := 0b00000001
def OVERFLOW_FLAG : Nat := 0b01000000

/-- Size of the backing store: the source declares `memory: [u8; 0xffff]`. -/
def MEM_SIZE : Nat := 0xffff

/-- CPU state, from `src/cpu.rs` (`struct CPU`); the memory array is its
content function, bounds-checked against `MEM_SIZE` on every access. -/
structure CPU where
  a : Nat
  x : Nat
  y : Nat
  status : Nat
  program_counter : Nat
  memory : Nat → Nat

/-- `CPU::new`: everything zeroed, memory zero-filled. -/
def CPU.new : CPU :=
  { a := 0, x := 0, y := 0, status := 0, program_counter := 0
    memory := fun _ => 0 }

/-- `mem_read`: index into the backing array; out of bounds is a panic. -/
def mem_read (c : CPU) (addr : Nat) : Except CpuError Nat :=
  if addr < MEM_SIZE then .ok (c.memory addr)
  else .error (.MemoryAddressOutOfRange addr)

/-- `mem_write`: store into the backing array; out of bounds is a panic. -/
def mem_write (c : CPU) (addr value : Nat) : Except CpuError CPU :=
  if addr < MEM_SIZE then
    .ok { c with memory := fun i => if i = addr then value else c.memory i }
  else .error (.MemoryAddressOutOfRange addr)

/-- `mem_read_u16`: little-endian 16-bit read (`(hi << 8) | lo`). -/
def mem_read_u16 (c : CPU) (pos : Nat) : Except CpuError Nat := do
  let lo ← mem_read c pos
  let hi ← mem_read c (pos + 1)
  pure ((hi <<< 8) ||| lo)

/-- `mem_write_u16`: little-endian 16-bit write (lo byte first). -/
def mem_write_u16 (c : CPU) (pos data : Nat) : Except CpuError CPU := do
  let hi := (data >>> 8) % 256
  let lo := data &&& 0xff
  let c1 ← mem_write c pos lo
  mem_write c1 (pos + 1) hi

/-- `copy_from_slice` of `load`: write the program bytes sequentially
starting at `start` into the content function. -/
def write_slice (m : Nat → Nat) (start : Nat) : List Nat → (Nat → Nat)
  | [] => m
  | v :: rest => write_slice (fun i => if i = start then v else m i) (start + 1) rest

/-- `load`: copy the program to `0x8000..0x8000+len` (the slice bound check
of `copy_from_slice` is the panic on oversize programs), then write the base
address `0x8000` little-endian at the reset vector `0xfffc`. -/
def load (c : CPU) (program : List Nat) : Except CpuError CPU :=
  if 0x8000 + program.length ≤ MEM_SIZE then
    mem_write_u16 { c with memory := write_slice c.memory 0x8000 program } 0xfffc 0x8000
  else .error (.MemoryAddressOutOfRange (0x8000 + program.length))

/-- `reset`: zero `a`, `x`, `status` (the source does not touch `y`), and
load the program counter from the reset vector at `0xfffc`. -/
def reset (c : CPU) : Except CpuError CPU := do
  let pc ← mem_read_u16 c 0xfffc
  pure { c with a := 0, x := 0, status := 0, program_counter := pc }

/-- `get_operand_address`: effective-address computation per addressing mode;
`wrapping_add` on `u8` is `% 256`, on `u16` is `% 65536`; the
`NoneAddressing` panic is the `InvalidAddressingMode` error. -/
def get_operand_address (c : CPU) (mode : AddressingMode) : Except CpuError Nat :=
  match mode with
  | .Immediate => .ok c.program_counter
  | .ZeroPage => mem_read c c.program_counter
  | .Absolute => mem_read_u16 c c.program_counter
  | .ZeroPageX => do
      let pos ← mem_read c c.program_counter
      pure ((pos + c.x) % 256)
  | .ZeroPageY => do
      let pos ← mem_read c c.program_counter
      pure ((pos + c.y) % 256)
  | .AbsoluteX => do
      let base ← mem_read_u16 c c.program_counter
      pure ((base + c.x) % 65536)
  | .AbsoluteY => do
      let base ← mem_read_u16 c c.program_counter
      pure ((base + c.y) % 65536)
  | .IndirectX => do
      let base ← mem_read c c.program_counter
      let ptr := (base + c.x) % 256
      mem_read_u16 c ptr
  | .IndirectY => do
      let base ← mem_read c c.program_counter
      let deref_base ← mem_read_u16 c base
      pure ((deref_base + c.y) % 65536)
  | .NoneAddressing => .error .InvalidAddressingMode

/-- `update_zero_and_negative_flags`: zero flag from `result == 0`,
negative flag from bit 7 of `result`; `!FLAG` on `u8` is `255 ^^^ FLAG`. -/
def update_zero_and_negative_flags (c : CPU) (result : Nat) : CPU :=
  let status1 :=
    if result = 0 then c.status ||| ZERO_FLAG
    else c.status &&& (255 ^^^ ZERO_FLAG)
  let status2 :=
    if result &&& 0b10000000 ≠ 0 then status1 ||| NEGATIVE_FLAG
    else status1 &&& (255 ^^^ NEGATIVE_FLAG)
  { c with status := status2 }

/-- `update_overflow_flag`. -/
def update_overflow_flag (c : CPU) (overflow : Bool) : CPU :=
  { c with status :=
      if overflow then c.status ||| OVERFLOW_FLAG
      else c.status &&& (255 ^^^ OVERFLOW_FLAG) }

/-- `update_carry_flag`. -/
def update_carry_flag (c : CPU) (carry : Bool) : CPU :=
  { c with status :=
      if carry then c.status ||| CARRY_FLAG
      else c.status &&& (255 ^^^ CARRY_FLAG) }

/-- The register/flag part of `adc` (lines 137-147 of `src/cpu.rs`), after
the operand value has been fetched: widened sum, carry from `res > 0xff`,
signed overflow from `(a ^ res as u8) & (value ^ res as u8) & 0x80`, then
`a = res as u8` and the zero/negative update.  Note the overflow test uses
the OLD accumulator: the source assigns `self.a` only afterwards. -/
def adc_value (c : CPU) (value : Nat) : CPU :=
  let previous_carry := c.status &&& CARRY_FLAG
  let res := c.a + value + previous_carry
  let carry := decide (res > 0xff)
  let c1 := update_carry_flag c carry
  let overflow := decide ((c.a ^^^ (res % 256)) &&& (value ^^^ (res % 256)) &&& 0x80 ≠ 0)
  let c2 := update_overflow_flag c1 overflow
  let c3 := { c2 with a := res % 256 }
  update_zero_and_negative_flags c3 (res % 256)

/-- `adc`: resolve the operand address, fetch the value, do the sum. -/
def adc (c : CPU) (mode : AddressingMode) : Except CpuError CPU := do
  let addr ← get_operand_address c mode
  let value ← mem_read c addr
  pure (adc_value c value)

/-- `and`: bitwise AND into the accumulator, then zero/negative update. -/
def and (c : CPU) (mode : AddressingMode) : Except CpuError CPU := do
  let addr ← get_operand_address c mode
  let value ← mem_read c addr
  let c1 := { c with a := c.a &&& value }
  pure (update_zero_and_negative_flags c1 c1.a)

/-- `lda`: load the operand into the accumulator, zero/negative update. -/
def lda (c : CPU) (mode : AddressingMode) : Except CpuError CPU := do
  let addr ← get_operand_address c mode
  let value ← mem_read c addr
  let c1 := { c with a := value }
  pure (update_zero_and_negative_flags c1 value)

/-- `sta`: store the accumulator at the resolved address; no flag effect. -/
def sta (c : CPU) (mode : AddressingMode) : Except CpuError CPU := do
  let addr ← get_operand_address c mode
  mem_write c addr c.a

/-- `tax`: X = A, zero/negative update. -/
def tax (c : CPU) : CPU :=
  let c1 := { c with x := c.a }
  update_zero_and_negative_flags c1 c1.x

/-- `inx`: X = X + 1 wrapping on `u8`, zero/negative update. -/
def inx (c : CPU) : CPU :=
  let c1 := { c with x := (c.x + 1) % 256 }
  update_zero_and_negative_flags c1 c1.x

/-- `run`: the fetch-decode-dispatch-advance loop, with fuel.  `none` means
the fuel ran out.  The `"BRK" => return` arm of the source's dispatch match
is checked first (the string patterns are disjoint, so the order of arms is
immaterial); the dispatch catch-all `unreachable!()` is the `Unreachable`
error. -/
def run : Nat → CPU → Option (Except CpuError CPU)
  | 0, _ => none
  | fuel + 1, c =>
    match mem_read c c.program_counter with
    | .error e => some (.error e)
    | .ok b =>
      match from_u8 b with
      | .error e => some (.error e)
      | .ok opcode =>
        let c1 := { c with program_counter := c.program_counter + 1 }
        if opcode.mnemonic = "BRK" then some (.ok c1)
        else
          let step : Except CpuError CPU :=
            match opcode.mnemonic with
            | "ADC" => adc c1 opcode.mode
            | "AND" => and c1 opcode.mode
            | "LDA" => lda c1 opcode.mode
            | "STA" => sta c1 opcode.mode
            | "TAX" => .ok (tax c1)
            | "INX" => .ok (inx c1)
            | _ => .error .Unreachable
          match step with
          | .error e => some (.error e)
          | .ok c2 =>
            run fuel { c2 with program_counter := c2.program_counter + (opcode.bytes - 1) }

/-- `load_and_run`: `load`, then `reset`, then `run`. -/
def load_and_run (fuel : Nat) (c : CPU) (program : List Nat) :
    Option (Except CpuError CPU) :=
  match load c program with
  | .error e => some (.error e)
  | .ok c1 =>
    match reset c1 with
    | .error e => some (.error e)
    | .ok c2 => run fuel c2


/-! ### Literal `testBit` facts for the flag masks (used by the simp proofs) -/

@[simp] lemma tb_1_0 : Nat.testBit 1 0 = true := by decide

@[simp] lemma tb_1_1 : Nat.testBit 1 1 = false := by decide

@[simp] lemma tb_1_2 : Nat.testBit 1 2 = false := by decide

@[simp] lemma tb_1_3 : Nat.testBit 1 3 = false := by decide

@[simp] lemma tb_1_4 : Nat.testBit 1 4 = false := by decide

@[simp] lemma tb_1_5 : Nat.testBit 1 5 = false := by decide

@[simp] lemma tb_1_6 : Nat.testBit 1 6 = false := by decide

@[simp] lemma tb_1_7 : Nat.testBit 1 7 = false := by decide

@[simp] lemma tb_2_0 : Nat.testBit 2 0 = false := by decide

@[simp] lemma tb_2_1 : Nat.testBit 2 1 = true := by decide

@[simp] lemma tb_2_2 : Nat.testBit 2 2 = false := by decide

@[simp] lemma tb_2_3 : Nat.testBit 2 3 = false := by decide

@[simp] lemma tb_2_4 : Nat.testBit 2 4 = false := by decide

@[simp] lemma tb_2_5 : Nat.testBit 2 5 = false := by decide

@[simp] lemma tb_2_6 : Nat.testBit 2 6 = false := by decide

@[simp] lemma tb_2_7 : Nat.testBit 2 7 = false := by decide

@[simp] lemma tb_64_0 : Nat.testBit 64 0 = false := by decide

@[simp] lemma tb_64_1 : Nat.testBit 64 1 = false := by decide

@[simp] lemma tb_64_2 : Nat.testBit 64 2 = false := by decide

@[simp] lemma tb_64_3 : Nat.testBit 64 3 = false := by decide

@[simp] lemma tb_64_4 : Nat.testBit 64 4 = false := by decide

@[simp] lemma tb_64_5 : Nat.testBit 64 5 = false := by decide

@[simp] lemma tb_64_6 : Nat.testBit 64 6 = true := by decide

@[simp] lemma tb_64_7 : Nat.testBit 64 7 = false := by decide

@[simp] lemma tb_128_0 : Nat.testBit 128 0 = false := by decide

@[simp] lemma tb_128_1 : Nat.testBit 128 1 = false := by decide

@[simp] lemma tb_128_2 : Nat.testBit 128 2 = false := by decide

@[simp] lemma tb_128_3 : Nat.testBit 128 3 = false := by decide

@[simp] lemma tb_128_4 : Nat.testBit 128 4 = false := by decide

@[simp] lemma tb_128_5 : Nat.testBit 128 5 = false := by decide

@[simp] lemma tb_128_6 : Nat.testBit 128 6 = false := by decide

@[simp] lemma tb_128_7 : Nat.testBit 128 7 = true := by decide

@[simp] lemma tb_254_0 : Nat.testBit 254 0 = false := by decide

@[simp] lemma tb_254_1 : Nat.testBit 254 1 = true := by decide

@[simp] lemma tb_254_2 : Nat.testBit 254 2 = true := by decide

@[simp] lemma tb_254_3 : Nat.testBit 254 3 = true := by decide

@[simp] lemma tb_254_4 : Nat.testBit 254 4 = true := by decide

@[simp] lemma tb_254_5 : Nat.testBit 254 5 = true := by decide

@[simp] lemma tb_254_6 : Nat.testBit 254 6 = true := by decide

@[simp] lemma tb_254_7 : Nat.testBit 254 7 = true := by decide

@[simp] lemma tb_253_0 : Nat.testBit 253 0 = true := by decide

@[simp] lemma tb_253_1 : Nat.testBit 253 1 = false := by decide

@[simp] lemma tb_253_2 : Nat.testBit 253 2 = true := by decide

@[simp] lemma tb_253_3 : Nat.testBit 253 3 = true := by decide

@[simp] lemma tb_253_4 : Nat.testBit 253 4 = true := by decide

@[simp] lemma tb_253_5 : Nat.testBit 253 5 = true := by decide

@[simp] lemma tb_253_6 : Nat.testBit 253 6 = true := by decide

@[simp] lemma tb_253_7 : Nat.testBit 253 7 = true := by decide

@[simp] lemma tb_191_0 : Nat.testBit 191 0 = true := by decide

@[simp] lemma tb_191_1 : Nat.testBit 191 1 = true := by decide

@[simp] lemma tb_191_2 : Nat.testBit 191 2 = true := by decide

@[simp] lemma tb_191_3 : Nat.testBit 191 3 = true := by decide

@[simp] lemma tb_191_4 : Nat.testBit 191 4 = true := by decide

@[simp] lemma tb_191_5 : Nat.testBit 191 5 = true := by decide

@[simp] lemma tb_191_6 : Nat.testBit 191 6 = false := by decide

@[simp] lemma tb_191_7 : Nat.testBit 191 7 = true := by decide

@[simp] lemma tb_127_0 : Nat.testBit 127 0 = true := by decide

@[simp] lemma tb_127_1 : Nat.testBit 127 1 = true := by decide

@[simp] lemma tb_127_2 : Nat.testBit 127 2 = true := by decide

@[simp] lemma tb_127_3 : Nat.testBit 127 3 = true := by decide

@[simp] lemma tb_127_4 : Nat.testBit 127 4 = true := by decide

@[simp] lemma tb_127_5 : Nat.testBit 127 5 = true := by decide

@[simp] lemma tb_127_6 : Nat.testBit 127 6 = true := by decide

@[simp] lemma tb_127_7 : Nat.testBit 127 7 = false := by decide

end Nes

deriving instance DecidableEq for Except

namespace Nes

/-! ### Helper lemmas: concrete lookups and bit arithmetic -/

lemma from_u8_a9 : from_u8 0xa9 = .ok ⟨0xa9, "LDA", 2, 2, .Immediate⟩ := by decide

lemma from_u8_aa : from_u8 0xaa = .ok ⟨0xaa, "TAX", 1, 2, .NoneAddressing⟩ := by decide

lemma from_u8_e8 : from_u8 0xe8 = .ok ⟨0xe8, "INX", 1, 2, .NoneAddressing⟩ := by decide

lemma from_u8_00 : from_u8 0x00 = .ok ⟨0x00, "BRK", 1, 7, .NoneAddressing⟩ := by decide

lemma lo_byte_base : (32768 : Nat) &&& 255 = 0 := by decide

lemma hi_byte_base : ((32768 : Nat) >>> 8) % 256 = 128 := by decide

lemma recombine_base : (128 : Nat) <<< 8 ||| 0 = 32768 := by decide

lemma mask_not_zero : (255 : Nat) ^^^ 2 = 253 := by decide

lemma mask_not_negative : (255 : Nat) ^^^ 128 = 127 := by decide

lemma mask_not_carry : (255 : Nat) ^^^ 1 = 254 := by decide

lemma mask_not_overflow : (255 : Nat) ^^^ 64 = 191 := by decide

/-- A single-bit mask test is a `testBit`: bit 0, mask 1. -/
lemma and_one_ne_zero (n : Nat) : n &&& 1 ≠ 0 ↔ n.testBit 0 = true := by
  rw [Nat.and_one_is_mod, Nat.testBit_zero]
  simp only [decide_eq_true_eq]
  omega

/-- A single-bit mask test is a `testBit`: bit 1, mask 2 (the zero flag). -/
lemma and_two_ne_zero (n : Nat) : n &&& 2 ≠ 0 ↔ n.testBit 1 = true := by
  have h : n &&& 2 = (n.testBit 1).toNat * 2 := by simpa using Nat.and_two_pow n 1
  rw [h]
  cases hb : n.testBit 1 <;> simp

/-- A single-bit mask test is a `testBit`: bit 6, mask 64 (the overflow flag). -/
lemma and_sixtyfour_ne_zero (n : Nat) : n &&& 64 ≠ 0 ↔ n.testBit 6 = true := by
  have h : n &&& 64 = (n.testBit 6).toNat * 64 := by simpa using Nat.and_two_pow n 6
  rw [h]
  cases hb : n.testBit 6 <;> simp

/-- A single-bit mask test is a `testBit`: bit 7, mask 128 (the negative flag). -/
lemma and_oneTwentyEight_ne_zero (n : Nat) : n &&& 128 ≠ 0 ↔ n.testBit 7 = true := by
  have h : n &&& 128 = (n.testBit 7).toNat * 128 := by simpa using Nat.and_two_pow n 7
  rw [h]
  cases hb : n.testBit 7 <;> simp

end Nes

namespace Nes

/-! ### Bit-level behaviour of the flag-update helpers -/

lemma zn_status (c : CPU) (r : Nat) :
    (update_zero_and_negative_flags c r).status =
      if r &&& 128 ≠ 0 then
        (if r = 0 then c.status ||| 2 else c.status &&& 253) ||| 128
      else (if r = 0 then c.status ||| 2 else c.status &&& 253) &&& 127 := by
  simp only [update_zero_and_negative_flags, ZERO_FLAG, NEGATIVE_FLAG, mask_not_zero,
    mask_not_negative]

lemma zn_testBit1 (c : CPU) (r : Nat) :
    (update_zero_and_negative_flags c r).status.testBit 1 = decide (r = 0) := by
  rw [zn_status]
  by_cases h7 : r &&& 128 ≠ 0 <;> by_cases h0 : r = 0 <;>
    simp [h7, h0, Nat.testBit_lor, Nat.testBit_land]

lemma zn_testBit7 (c : CPU) (r : Nat) :
    (update_zero_and_negative_flags c r).status.testBit 7 = decide (r &&& 128 ≠ 0) := by
  rw [zn_status]
  by_cases h7 : r &&& 128 ≠ 0 <;> by_cases h0 : r = 0 <;>
    simp [h7, h0, Nat.testBit_lor, Nat.testBit_land]

lemma zn_testBit_other (c : CPU) (r i : Nat) (hi : i < 8) (h1 : i ≠ 1) (h7 : i ≠ 7) :
    (update_zero_and_negative_flags c r).status.testBit i = c.status.testBit i := by
  rw [zn_status]
  interval_cases i <;> by_cases h0 : r = 0 <;> by_cases hn : r &&& 128 ≠ 0 <;>
    simp_all [Nat.testBit_lor, Nat.testBit_land]

lemma cf_status (c : CPU) (b : Bool) :
    (update_carry_flag c b).status = if b then c.status ||| 1 else c.status &&& 254 := by
  simp only [update_carry_flag, CARRY_FLAG, mask_not_carry]

lemma cf_testBit0 (c : CPU) (b : Bool) :
    (update_carry_flag c b).status.testBit 0 = b := by
  rw [cf_status]
  cases b <;> simp [Nat.testBit_lor, Nat.testBit_land]

lemma of_status (c : CPU) (b : Bool) :
    (update_overflow_flag c b).status = if b then c.status ||| 64 else c.status &&& 191 := by
  simp only [update_overflow_flag, OVERFLOW_FLAG, mask_not_overflow]

lemma of_testBit6 (c : CPU) (b : Bool) :
    (update_overflow_flag c b).status.testBit 6 = b := by
  rw [of_status]
  cases b <;> simp [Nat.testBit_lor, Nat.testBit_land]

lemma of_testBit0 (c : CPU) (b : Bool) :
    (update_overflow_flag c b).status.testBit 0 = c.status.testBit 0 := by
  rw [of_status]
  cases b <;> simp [Nat.testBit_lor, Nat.testBit_land]

@[simp] lemma zn_a (c : CPU) (r : Nat) :
    (update_zero_and_negative_flags c r).a = c.a := rfl

@[simp] lemma zn_x (c : CPU) (r : Nat) :
    (update_zero_and_negative_flags c r).x = c.x := rfl

@[simp] lemma zn_y (c : CPU) (r : Nat) :
    (update_zero_and_negative_flags c r).y = c.y := rfl

@[simp] lemma cf_a (c : CPU) (b : Bool) : (update_carry_flag c b).a = c.a := rfl

@[simp] lemma of_a (c : CPU) (b : Bool) : (update_overflow_flag c b).a = c.a := rfl

end Nes

namespace Nes

/-! ### Claim theorems -/

/-- Claim C1, code evaluated at the failing input: the backing store has
`0xffff = 65535` cells, one short of the 65536 the claim requires, so
reading or writing the topmost 16-bit address `0xFFFF` hits the
MemoryAddressOutOfRange condition (a Rust index panic), while `0xFFFE`
still reads the zero-initialised value. -/
theorem memory_top_address_out_of_range :
    MEM_SIZE = 65535
  ∧ mem_read CPU.new 0xfffe = .ok 0
  ∧ mem_read CPU.new 0xffff = .error (.MemoryAddressOutOfRange 0xffff)
  ∧ (∀ v, mem_write CPU.new 0xffff v = .error (.MemoryAddressOutOfRange 0xffff)) :=
  ⟨rfl, by decide, by decide, fun v => rfl⟩

/-- Claim C2, code evaluated at the failing inputs: the opcode table has no
entry whose mnemonic is "AND" (so lookup of the AND-Immediate byte 0x29
fails with UnknownOpcode), it maps 0x7D to ADC with AbsoluteY addressing
instead of AbsoluteX, and it maps 0xB1 to LDA with IndirectX addressing
instead of IndirectY. -/
theorem opcode_table_divergences :
    from_u8 0x29 = .error (.UnknownOpcode 0x29)
  ∧ CPU_OP_CODES.all (fun op => op.mnemonic != "AND") = true
  ∧ from_u8 0x7d = .ok ⟨0x7d, "ADC", 3, 4, .AbsoluteY⟩
  ∧ from_u8 0xb1 = .ok ⟨0xb1, "LDA", 2, 5, .IndirectX⟩ :=
  ⟨by decide, by decide, by decide, by decide⟩

/-- Claim C3, code evaluated at the failing input: `reset` does not zero the
Y index register — on a CPU whose Y register holds 7, Y still holds 7 after
`reset`, though the claim requires it to be zeroed. -/
theorem reset_leaves_y_unchanged :
    (reset { CPU.new with y := 7 }).map CPU.y = .ok 7
  ∧ (reset { CPU.new with y := 7 }).map CPU.y ≠ .ok 0 :=
  ⟨by decide, by decide⟩

/-- What `reset` actually does: zero the accumulator, X, and status, keep Y,
and load the program counter little-endian from the reset vector 0xFFFC. -/
theorem reset_spec :
    ∀ c : CPU, reset c =
      .ok ⟨0, 0, c.y, 0, (c.memory 0xfffd) <<< 8 ||| c.memory 0xfffc, c.memory⟩ := by
  intro c
  simp [reset, mem_read_u16, mem_read, MEM_SIZE, bind, Except.bind, pure, Except.pure]

end Nes

namespace Nes

/-- Claim C4: lookup of any byte with no table entry returns the typed
UnknownOpcode error to its caller; resolving the NoneAddressing (Implied)
mode returns the typed InvalidAddressingMode error; a failed lookup stops
the run loop, which returns that error; and load_and_run hands the outcome
of run through to its caller. -/
theorem errors_propagate_to_caller :
    (∀ b, (∀ op ∈ CPU_OP_CODES, b ≠ op.hex) → from_u8 b = .error (.UnknownOpcode b))
  ∧ (∀ c : CPU, get_operand_address c .NoneAddressing = .error .InvalidAddressingMode)
  ∧ (∀ (fuel : Nat) (c : CPU) (b : Nat),
      mem_read c c.program_counter = .ok b →
      from_u8 b = .error (.UnknownOpcode b) →
      run (fuel + 1) c = some (.error (.UnknownOpcode b)))
  ∧ (∀ (fuel : Nat) (c c1 c2 : CPU) (program : List Nat),
      load c program = .ok c1 → reset c1 = .ok c2 →
      load_and_run fuel c program = run fuel c2) := by
  refine ⟨?_, ?_, ?_, ?_⟩
  · intro b hb
    have hnone : CPU_OP_CODES.find? (fun op => b == op.hex) = none :=
      List.find?_eq_none.mpr (fun op hop => by simpa using hb op hop)
    simp [from_u8, hnone]
  · intro c
    rfl
  · intro fuel c b h1 h2
    simp only [run, h1, h2]
  · intro fuel c c1 c2 program h1 h2
    simp [load_and_run, h1, h2]

/-- Witness for C4: the byte 0x02 has no table entry, lookup returns the
UnknownOpcode error, and a run on a CPU whose program counter points at a
0x02 byte stops with that error. -/
theorem errors_propagate_to_caller_witness :
    from_u8 2 = .error (.UnknownOpcode 2)
  ∧ run 1 { CPU.new with memory := fun i => if i = 0 then 2 else 0 }
      = some (.error (.UnknownOpcode 2)) :=
  ⟨errors_propagate_to_caller.1 2 (by decide),
   errors_propagate_to_caller.2.2.1 0 _ 2 (by decide)
     (errors_propagate_to_caller.1 2 (by decide))⟩

end Nes

namespace Nes

/-- `adc_value` written as the explicit composition of its flag updates. -/
lemma adc_value_eq (c : CPU) (value : Nat) :
    adc_value c value =
      update_zero_and_negative_flags
        { update_overflow_flag
            (update_carry_flag c (decide (c.a + value + (c.status &&& CARRY_FLAG) > 255)))
            (decide ((c.a ^^^ (c.a + value + (c.status &&& CARRY_FLAG)) % 256) &&&
              (value ^^^ (c.a + value + (c.status &&& CARRY_FLAG)) % 256) &&& 128 ≠ 0))
          with a := (c.a + value + (c.status &&& CARRY_FLAG)) % 256 }
        ((c.a + value + (c.status &&& CARRY_FLAG)) % 256) := rfl

/-- Claim C5: for every accumulator, operand and incoming carry bit, `adc`
computes the widened sum, sets carry iff the sum exceeds 255, sets overflow
iff `(A ^ result) & (operand ^ result) & 0x80` is nonzero, truncates the
result into A, and derives zero/negative from the truncated result; in
particular 0xFF + 0x01 gives 0x00 with carry and zero set and overflow
clear, and 0x7F + 0x01 gives 0x80 with overflow and negative set and zero
clear. -/
theorem adc_flag_semantics :
    (∀ (c : CPU) (value : Nat),
      (adc_value c value).a = (c.a + value + (c.status &&& CARRY_FLAG)) % 256
      ∧ ((adc_value c value).status &&& CARRY_FLAG ≠ 0 ↔
          c.a + value + (c.status &&& CARRY_FLAG) > 255)
      ∧ ((adc_value c value).status &&& OVERFLOW_FLAG ≠ 0 ↔
          (c.a ^^^ (c.a + value + (c.status &&& CARRY_FLAG)) % 256) &&&
            (value ^^^ (c.a + value + (c.status &&& CARRY_FLAG)) % 256) &&& 0x80 ≠ 0)
      ∧ ((adc_value c value).status &&& ZERO_FLAG ≠ 0 ↔
          (c.a + value + (c.status &&& CARRY_FLAG)) % 256 = 0)
      ∧ ((adc_value c value).status &&& NEGATIVE_FLAG ≠ 0 ↔
          (c.a + value + (c.status &&& CARRY_FLAG)) % 256 &&& 0x80 ≠ 0))
  ∧ ((adc_value { CPU.new with a := 0xff } 0x01).a = 0x00
      ∧ (adc_value { CPU.new with a := 0xff } 0x01).status &&& CARRY_FLAG ≠ 0
      ∧ (adc_value { CPU.new with a := 0xff } 0x01).status &&& ZERO_FLAG ≠ 0
      ∧ (adc_value { CPU.new with a := 0xff } 0x01).status &&& OVERFLOW_FLAG = 0)
  ∧ ((adc_value { CPU.new with a := 0x7f } 0x01).a = 0x80
      ∧ (adc_value { CPU.new with a := 0x7f } 0x01).status &&& OVERFLOW_FLAG ≠ 0
      ∧ (adc_value { CPU.new with a := 0x7f } 0x01).status &&& NEGATIVE_FLAG ≠ 0
      ∧ (adc_value { CPU.new with a := 0x7f } 0x01).status &&& ZERO_FLAG = 0) := by
  refine ⟨?_, by decide, by decide⟩
  intro c value
  rw [adc_value_eq]
  refine ⟨by simp, ?_, ?_, ?_, ?_⟩
  · rw [CARRY_FLAG, and_one_ne_zero,
      zn_testBit_other _ _ 0 (by norm_num) (by norm_num) (by norm_num)]
    simp only [of_testBit0, cf_testBit0, decide_eq_true_eq]
  · rw [OVERFLOW_FLAG, and_sixtyfour_ne_zero,
      zn_testBit_other _ _ 6 (by norm_num) (by norm_num) (by norm_num)]
    simp only [of_testBit6, decide_eq_true_eq]
  · rw [ZERO_FLAG, and_two_ne_zero, zn_testBit1]
    simp only [decide_eq_true_eq]
  · rw [NEGATIVE_FLAG, and_oneTwentyEight_ne_zero, zn_testBit7]
    simp only [decide_eq_true_eq]

end Nes

namespace Nes

/-- Claim C6: the resolver computes ZeroPageX/ZeroPageY addresses modulo 256
(staying in page 0), reads a little-endian 16-bit operand for Absolute, adds
X/Y modulo 65536 for AbsoluteX/AbsoluteY, and for IndirectY dereferences the
zero-page pointer first and only then adds Y modulo 65536; in particular a
ZeroPageX operand 0xFF with X=0x02 resolves to 0x0001 and never 0x0101. -/
theorem addressing_mode_formulas :
    (∀ c : CPU, c.program_counter < MEM_SIZE →
        get_operand_address c .ZeroPageX = .ok ((c.memory c.program_counter + c.x) % 256)
      ∧ get_operand_address c .ZeroPageY = .ok ((c.memory c.program_counter + c.y) % 256)
      ∧ (c.memory c.program_counter + c.x) % 256 < 256)
  ∧ (∀ c : CPU, c.program_counter + 1 < MEM_SIZE →
        get_operand_address c .Absolute =
          .ok ((c.memory (c.program_counter + 1)) <<< 8 ||| c.memory c.program_counter)
      ∧ get_operand_address c .AbsoluteX =
          .ok ((((c.memory (c.program_counter + 1)) <<< 8 |||
            c.memory c.program_counter) + c.x) % 65536)
      ∧ get_operand_address c .AbsoluteY =
          .ok ((((c.memory (c.program_counter + 1)) <<< 8 |||
            c.memory c.program_counter) + c.y) % 65536))
  ∧ (∀ c : CPU, c.program_counter < MEM_SIZE → c.memory c.program_counter < 256 →
        get_operand_address c .IndirectY =
          .ok ((((c.memory (c.memory c.program_counter + 1)) <<< 8 |||
            c.memory (c.memory c.program_counter)) + c.y) % 65536))
  ∧ get_operand_address { CPU.new with x := 2, memory := fun i => if i = 0 then 0xff else 0 }
      .ZeroPageX = .ok 0x0001
  ∧ get_operand_address { CPU.new with x := 2, memory := fun i => if i = 0 then 0xff else 0 }
      .ZeroPageX ≠ .ok 0x0101 := by
  refine ⟨?_, ?_, ?_, by decide, by decide⟩
  · intro c h
    refine ⟨?_, ?_, Nat.mod_lt _ (by norm_num)⟩ <;>
      simp [get_operand_address, mem_read, h, bind, Except.bind, pure, Except.pure]
  · intro c h
    have h0 : c.program_counter < MEM_SIZE := by omega
    refine ⟨?_, ?_, ?_⟩ <;>
      simp [get_operand_address, mem_read_u16, mem_read, h, h0, bind, Except.bind,
        pure, Except.pure]
  · intro c h hb
    have h1 : c.memory c.program_counter < MEM_SIZE := by
      have : MEM_SIZE = 65535 := rfl
      omega
    have h2 : c.memory c.program_counter + 1 < MEM_SIZE := by
      have : MEM_SIZE = 65535 := rfl
      omega
    simp [get_operand_address, mem_read_u16, mem_read, h, h1, h2, bind, Except.bind,
      pure, Except.pure]

/-- Witness for C6 at a concrete CPU: operand byte 0x40 at the program
counter, the little-endian word 0x1234 stored at zero page 0x40, X=2, Y=3:
ZeroPageX resolves to 0x42, Absolute to 0x1240, IndirectY to 0x1237. -/
theorem addressing_mode_formulas_witness :
    get_operand_address { CPU.new with x := 2, y := 3, memory := fun i =>
        if i = 0 then 0x40 else if i = 1 then 0x12 else
        if i = 0x40 then 0x34 else if i = 0x41 then 0x12 else 0 }
      .ZeroPageX = .ok 0x42
  ∧ get_operand_address { CPU.new with x := 2, y := 3, memory := fun i =>
        if i = 0 then 0x40 else if i = 1 then 0x12 else
        if i = 0x40 then 0x34 else if i = 0x41 then 0x12 else 0 }
      .Absolute = .ok 0x1240
  ∧ get_operand_address { CPU.new with x := 2, y := 3, memory := fun i =>
        if i = 0 then 0x40 else if i = 1 then 0x12 else
        if i = 0x40 then 0x34 else if i = 0x41 then 0x12 else 0 }
      .IndirectY = .ok 0x1237 :=
  ⟨((addressing_mode_formulas.1 _ (by decide)).1).trans (by decide),
   ((addressing_mode_formulas.2.1 _ (by decide)).1).trans (by decide),
   (addressing_mode_formulas.2.2.1 _ (by decide) (by decide)).trans (by decide)⟩

end Nes

namespace Nes

/-- Bit-0 masks agree when bit 0 agrees. -/
lemma and_one_eq_of_testBit0 (m n : Nat) (h : m.testBit 0 = n.testBit 0) :
    m &&& 1 = n &&& 1 := by
  have hm : m &&& 1 = (m.testBit 0).toNat := by simpa using Nat.and_two_pow m 0
  have hn : n &&& 1 = (n.testBit 0).toNat := by simpa using Nat.and_two_pow n 0
  rw [hm, hn, h]

/-- `inx` written as the zero/negative update of the incremented X. -/
lemma inx_eq (c : CPU) :
    inx c = update_zero_and_negative_flags { c with x := (c.x + 1) % 256 } ((c.x + 1) % 256) :=
  rfl

/-- Claim C7: for every starting X and every prior status, `inx` wraps X
modulo 256 and updates the zero and negative flags from the new X while the
carry flag keeps its prior value; in particular X=0xFF wraps to 0x00 with
zero set, negative clear, and the carry bit unchanged whether it was set or
clear before. -/
theorem inx_semantics :
    (∀ c : CPU,
        (inx c).x = (c.x + 1) % 256
      ∧ ((inx c).status &&& ZERO_FLAG ≠ 0 ↔ (c.x + 1) % 256 = 0)
      ∧ ((inx c).status &&& NEGATIVE_FLAG ≠ 0 ↔ (c.x + 1) % 256 &&& 0x80 ≠ 0)
      ∧ (inx c).status &&& CARRY_FLAG = c.status &&& CARRY_FLAG)
  ∧ ((inx { CPU.new with x := 0xff, status := 1 }).x = 0
      ∧ (inx { CPU.new with x := 0xff, status := 1 }).status &&& ZERO_FLAG ≠ 0
      ∧ (inx { CPU.new with x := 0xff, status := 1 }).status &&& NEGATIVE_FLAG = 0
      ∧ (inx { CPU.new with x := 0xff, status := 1 }).status &&& CARRY_FLAG ≠ 0)
  ∧ ((inx { CPU.new with x := 0xff }).x = 0
      ∧ (inx { CPU.new with x := 0xff }).status &&& CARRY_FLAG = 0) := by
  refine ⟨?_, by decide, by decide⟩
  intro c
  refine ⟨by rw [inx_eq]; simp, ?_, ?_, ?_⟩
  · rw [inx_eq, ZERO_FLAG, and_two_ne_zero, zn_testBit1]
    simp only [decide_eq_true_eq]
  · rw [inx_eq, NEGATIVE_FLAG, and_oneTwentyEight_ne_zero, zn_testBit7]
    simp only [decide_eq_true_eq]
  · rw [inx_eq, CARRY_FLAG]
    exact and_one_eq_of_testBit0 _ _
      (zn_testBit_other _ _ 0 (by norm_num) (by norm_num) (by norm_num))

/-- Claim C8: for every 8-bit result and every prior status,
`update_zero_and_negative_flags` sets the zero flag iff the result is 0,
sets the negative flag iff bit 7 of the result is set, and leaves every
other status bit unchanged; in particular, with all prior status bits set,
result 0 sets zero and clears negative, 0x80 sets negative and clears zero,
0x01 clears both, and the carry bit survives untouched. -/
theorem update_zero_and_negative_semantics :
    (∀ (c : CPU) (result : Nat),
        ((update_zero_and_negative_flags c result).status &&& ZERO_FLAG ≠ 0 ↔ result = 0)
      ∧ ((update_zero_and_negative_flags c result).status &&& NEGATIVE_FLAG ≠ 0 ↔
          result &&& 0x80 ≠ 0)
      ∧ (∀ i, i < 8 → i ≠ 1 → i ≠ 7 →
          (update_zero_and_negative_flags c result).status.testBit i = c.status.testBit i))
  ∧ ((update_zero_and_negative_flags { CPU.new with status := 0xff } 0).status &&& ZERO_FLAG ≠ 0
      ∧ (update_zero_and_negative_flags { CPU.new with status := 0xff } 0).status &&&
          NEGATIVE_FLAG = 0
      ∧ (update_zero_and_negative_flags { CPU.new with status := 0xff } 0).status &&&
          CARRY_FLAG ≠ 0)
  ∧ ((update_zero_and_negative_flags { CPU.new with status := 0xff } 0x80).status &&&
        NEGATIVE_FLAG ≠ 0
      ∧ (update_zero_and_negative_flags { CPU.new with status := 0xff } 0x80).status &&&
          ZERO_FLAG = 0)
  ∧ ((update_zero_and_negative_flags { CPU.new with status := 0xff } 0x01).status &&&
        ZERO_FLAG = 0
      ∧ (update_zero_and_negative_flags { CPU.new with status := 0xff } 0x01).status &&&
          NEGATIVE_FLAG = 0) := by
  refine ⟨?_, by decide, by decide, by decide⟩
  intro c result
  refine ⟨?_, ?_, ?_⟩
  · rw [ZERO_FLAG, and_two_ne_zero, zn_testBit1]
    simp only [decide_eq_true_eq]
  · rw [NEGATIVE_FLAG, and_oneTwentyEight_ne_zero, zn_testBit7]
    simp only [decide_eq_true_eq]
  · intro i hi h1 h7
    exact zn_testBit_other c result i hi h1 h7

/-- Witness for C8: applied at prior status 0x41 and result 5, the untouched
bit 6 (overflow) keeps its prior value. -/
theorem update_zero_and_negative_semantics_witness :
    (update_zero_and_negative_flags { CPU.new with status := 0x41 } 5).status.testBit 6
      = ({ CPU.new with status := 0x41 } : CPU).status.testBit 6 :=
  (update_zero_and_negative_semantics.1 _ 5).2.2 6 (by norm_num) (by norm_num) (by norm_num)

end Nes

namespace Nes

/-- Claim C9: for every program that fits below the end of memory, `load`
followed by `reset` leaves the program counter at the fixed base address
0x8000 that `load` wrote little-endian into the reset vector 0xFFFC. -/
theorem load_reset_round_trip :
    ∀ (c : CPU) (program : List Nat), 0x8000 + program.length ≤ MEM_SIZE →
      ((load c program).bind reset).map CPU.program_counter = .ok 0x8000 := by
  intro c program h
  simp only [MEM_SIZE] at h
  simp [load, h, mem_write_u16, mem_write, reset, mem_read_u16, mem_read, MEM_SIZE,
    bind, Except.bind, pure, Except.pure, Except.map, lo_byte_base, hi_byte_base,
    recombine_base]

/-- Witness for C9: the five-byte demo program fits below the end of memory
and the round trip indeed puts the program counter at 0x8000. -/
theorem load_reset_round_trip_witness :
    ((load CPU.new [0xa9, 0xc0, 0xaa, 0xe8, 0x00]).bind reset).map CPU.program_counter
      = .ok 0x8000 :=
  load_reset_round_trip CPU.new [0xa9, 0xc0, 0xaa, 0xe8, 0x00] (by decide)

lemma land_192_128 : (192 : Nat) &&& 128 = 128 := by decide

lemma land_193_128 : (193 : Nat) &&& 128 = 128 := by decide

lemma land_0_253 : (0 : Nat) &&& 253 = 0 := by decide

lemma lor_0_128 : (0 : Nat) ||| 128 = 128 := by decide

lemma land_128_253 : (128 : Nat) &&& 253 = 128 := by decide

lemma lor_128_128 : (128 : Nat) ||| 128 = 128 := by decide

lemma land_128_2 : (128 : Nat) &&& 2 = 0 := by decide

lemma land_128_128 : (128 : Nat) &&& 128 = 128 := by decide

/-- Claim C10: running the program [0xA9, 0xC0, 0xAA, 0xE8, 0x00]
(LDA #$C0; TAX; INX; BRK) through `load_and_run` terminates (fuel 10 is
enough) with A = 0xC0, X = 0xC1, the zero flag clear and the negative flag
set. -/
theorem end_to_end_lda_tax_inx :
    (load_and_run 10 CPU.new [0xa9, 0xc0, 0xaa, 0xe8, 0x00]).map
      (Except.map (fun c => (c.a, c.x, c.status &&& ZERO_FLAG, c.status &&& NEGATIVE_FLAG)))
      = some (.ok (0xc0, 0xc1, 0, 0x80)) := by
  simp [load_and_run, load, mem_write_u16, mem_write, write_slice, reset, mem_read_u16,
    mem_read, run, from_u8_a9, from_u8_aa, from_u8_e8, from_u8_00,
    lda, tax, inx, get_operand_address, update_zero_and_negative_flags,
    MEM_SIZE, ZERO_FLAG, NEGATIVE_FLAG, CARRY_FLAG, OVERFLOW_FLAG, CPU.new,
    Except.map, bind, Except.bind, pure, Except.pure, Option.map,
    lo_byte_base, hi_byte_base, recombine_base, mask_not_zero, mask_not_negative,
    land_192_128, land_193_128, land_0_253, lor_0_128, land_128_253, lor_128_128,
    land_128_2, land_128_128]

end Nes
